import Mathlib

/-!
Shallow embedding of the system-invocation core of `bevy_ecs`
(`src/crates/bevy_ecs/src/system/system.rs`,
`src/crates/bevy_ecs/src/system/function_system.rs`,
`src/crates/bevy_ecs/src/ptr.rs`), together with proofs of the
specified properties.

Machine integers (`u32`) are modelled as `Nat` with explicit reduction
modulo `2^32` where the source relies on wrapping arithmetic.  External
collaborators (the `World`, the archetype sequence, the
`SystemParamState` trait objects) are modelled from the spec where their
definitions are not part of the three source files; each such definition
says so in its doc comment.
-/

namespace Bevy

/-- The number of values of a `u32`: `2^32`. -/
def U32_SIZE : Nat := 4294967296

/-- `u32::MAX`. -/
def U32_MAX : Nat := 4294967295

/-- `u32`-wrapping subtraction `a.wrapping_sub(b)` for `a b : Nat`
(the result of `(a - b) mod 2^32`, total on `Nat`). -/
def wrapping_sub (a b : Nat) : Nat :=
  (a % U32_SIZE + (U32_SIZE - b % U32_SIZE)) % U32_SIZE

/-- `MAX_DELTA` from `check_system_change_tick`: `(u32::MAX / 4) * 3`. -/
def MAX_DELTA : Nat := (U32_MAX / 4) * 3

theorem MAX_DELTA_eq : MAX_DELTA = 3221225469 := rfl

theorem U32_SIZE_eq : U32_SIZE = 4294967296 := rfl

/-- `check_system_change_tick` from
`src/crates/bevy_ecs/src/system/system.rs`: computes the wrapping delta
between the global change tick and the system's last change tick; if it
exceeds `MAX_DELTA`, clamps the last change tick and emits a warning
naming the system.  The returned pair is the (possibly clamped) last
change tick together with the emitted warning (`some system_name` when
the `warn!` fires, `none` otherwise). -/
def check_system_change_tick (last_change_tick change_tick : Nat)
    (system_name : String) : Nat × Option String :=
  let tick_delta := wrapping_sub change_tick last_change_tick
  if tick_delta > MAX_DELTA then
    (wrapping_sub change_tick MAX_DELTA, some system_name)
  else
    (last_change_tick, none)

/-- `SystemMeta` from `function_system.rs`: name, merged component access
set, archetype component access, send-affinity flag, last-run change
tick.  The two access collections are abstracted as lists of registered
identifiers (their concrete types live in the external `query` module). -/
structure SystemMeta where
  name : String
  component_access_set : List Nat
  archetype_component_access : List Nat
  is_send : Bool
  last_change_tick : Nat
deriving DecidableEq

/-- `SystemMeta::new::<T>()`: fresh metadata with empty access, send-affinity
`true` and last change tick `0`. -/
def SystemMeta.new (name : String) : SystemMeta :=
  { name := name
    component_access_set := []
    archetype_component_access := []
    is_send := true
    last_change_tick := 0 }

/-- `SystemMeta::set_non_send`: flips the send-affinity flag to `false`. -/
def SystemMeta.set_non_send (m : SystemMeta) : SystemMeta :=
  { m with is_send := false }

/-- `SystemMeta::check_change_tick`: forwards to
`check_system_change_tick` on the stored last change tick. -/
def SystemMeta.check_change_tick (m : SystemMeta) (change_tick : Nat) :
    SystemMeta × Option String :=
  let r := check_system_change_tick m.last_change_tick change_tick m.name
  ({ m with last_change_tick := r.1 }, r.2)

/-- The mutating operations available on a `SystemMeta` after
construction: the `set_non_send` latch, the periodic
`check_change_tick`, and the access registrations performed by parameter
initialization and `new_archetype` passes (which only grow the two
access collections). -/
inductive MetaOp where
  | setNonSend
  | checkChangeTick (change_tick : Nat)
  | registerComponentAccess (c : Nat)
  | registerArchetypeAccess (c : Nat)
deriving DecidableEq

/-- Apply one `MetaOp` to a `SystemMeta`. -/
def SystemMeta.applyOp (m : SystemMeta) : MetaOp → SystemMeta
  | .setNonSend => m.set_non_send
  | .checkChangeTick t => (m.check_change_tick t).1
  | .registerComponentAccess c =>
      { m with component_access_set := m.component_access_set ++ [c] }
  | .registerArchetypeAccess c =>
      { m with archetype_component_access := m.archetype_component_access ++ [c] }

/-- Apply a sequence of `MetaOp`s in order. -/
def SystemMeta.applyOps (m : SystemMeta) (ops : List MetaOp) : SystemMeta :=
  ops.foldl SystemMeta.applyOp m

/-- Modelled from the spec: `SystemMetadata` with the exclusivity flag
(§3, §4.2).  The `System` trait in `system.rs` declares `is_exclusive`,
but the `SystemMeta` struct in `function_system.rs` does not carry the
flag and its `set_exclusive` latch is not among the source files;
modelled from the spec's words: initialized `false`, settable `true`
exactly once, with no operation that resets it. -/
structure SystemMetadata where
  meta : SystemMeta
  is_exclusive : Bool
deriving DecidableEq

/-- Modelled from the spec: fresh `SystemMetadata` has exclusivity
`false`. -/
def SystemMetadata.new (name : String) : SystemMetadata :=
  { meta := SystemMeta.new name, is_exclusive := false }

/-- Modelled from the spec: `setExclusive` writes `true` to the
exclusivity flag. -/
def SystemMetadata.set_exclusive (m : SystemMetadata) : SystemMetadata :=
  { m with is_exclusive := true }

/-- The mutating operations on a `SystemMetadata`: `setExclusive` plus
every `SystemMeta` operation (none of which touches the exclusivity
flag; the spec provides no operation that writes `false` to it). -/
inductive MetadataOp where
  | setExclusive
  | metaOp (op : MetaOp)
deriving DecidableEq

/-- Apply one `MetadataOp`. -/
def SystemMetadata.applyOp (m : SystemMetadata) : MetadataOp → SystemMetadata
  | .setExclusive => m.set_exclusive
  | .metaOp op => { m with meta := m.meta.applyOp op }

/-- Apply a sequence of `MetadataOp`s in order. -/
def SystemMetadata.applyOps (m : SystemMetadata) (ops : List MetadataOp) :
    SystemMetadata :=
  ops.foldl SystemMetadata.applyOp m

/-- Modelled from the spec: the `World` is an external collaborator (§6)
whose definition is not among the source files.  It exposes instance
identity, the archetype layout-generation (the archetypes form an
append-only indexed sequence, an archetype being identified by its
`ArchetypeId`, equal to its index; the generation is the number of
archetypes created so far), and the global `u32` change counter. -/
structure World where
  id : Nat
  archetype_count : Nat
  change_tick : Nat
deriving DecidableEq

/-- Modelled from the spec: `world.archetypes().generation()` — the
layout generation, which strictly increases whenever a new archetype
appears. -/
def World.generation (w : World) : Nat := w.archetype_count

/-- Modelled from the spec: `world.increment_change_tick()` increments
the global change counter (wrapping `u32`) and the incremented tick is
captured by the caller. -/
def World.increment_change_tick (w : World) : Nat × World :=
  let t := (w.change_tick + 1) % U32_SIZE
  (t, { w with change_tick := t })

/-- `PtrMut` from `ptr.rs`: a pointer-with-lifetime wrapper constructed
from an exclusive reference (`PtrMut::from_mut`); in this functional
embedding it wraps the pointed-to value. -/
structure PtrMut (α : Type) where
  value : α

/-- `PtrMut::from_mut`. -/
def PtrMut.from_mut {α : Type} (a : α) : PtrMut α := ⟨a⟩

/-- `PtrMut::as_ref` — the dereferenced value. -/
def PtrMut.as_ref {α : Type} (p : PtrMut α) : α := p.value

/-- Modelled from the spec: `SemiSafeCell`, the AccessToken used by
`System::run` in `system.rs`; its definition is not among the source
files.  Two variants — Shared (built from a shared reference) and
Exclusive (built from an exclusive reference); exclusive dereference of
a Shared token is a contract violation that fails loudly (the
abort/panic is modelled as `none`). -/
inductive SemiSafeCell (α : Type) where
  | shared (value : α)
  | exclusive (value : α)
deriving DecidableEq

/-- Modelled from the spec: `fromShared` builds the Shared variant. -/
def SemiSafeCell.from_ref {α : Type} (a : α) : SemiSafeCell α :=
  SemiSafeCell.shared a

/-- Modelled from the spec: `fromExclusive` builds the Exclusive
variant (`SemiSafeCell::from_mut`). -/
def SemiSafeCell.from_mut {α : Type} (a : α) : SemiSafeCell α :=
  SemiSafeCell.exclusive a

/-- Modelled from the spec: `derefShared` succeeds on both variants. -/
def SemiSafeCell.as_ref {α : Type} : SemiSafeCell α → α
  | .shared a => a
  | .exclusive a => a

/-- Modelled from the spec: `derefExclusive` — succeeds only on the
Exclusive variant; on a Shared token it aborts (`none`) rather than
returning a forged exclusive reference. -/
def SemiSafeCell.as_mut {α : Type} : SemiSafeCell α → Option α
  | .shared _ => none
  | .exclusive a => some a

/-- The `SystemParamState` / `SystemParamFetch` trait operations for a
parameter kind with state `σ` fetching items of type `α`, bundled as a
record (the traits are imported by `function_system.rs`; their impls are
external).  `init` registers access and builds the state;
`new_archetype` is called once per newly discovered archetype; `get_param`
fetches the item; `apply` flushes buffered effects into the world. -/
structure ParamStateOps (σ α : Type) where
  init : World → SystemMeta → σ × SystemMeta
  new_archetype : σ → Nat → SystemMeta → σ × SystemMeta
  get_param : σ → SystemMeta → PtrMut World → Nat → α × σ
  apply : σ → World → σ × World

/-- `SystemState` from `function_system.rs`: metadata, the parameter
state, the id of the `World` it was built against, and the observed
archetype generation. -/
structure SystemState (σ : Type) where
  meta : SystemMeta
  param_state : σ
  world_id : Nat
  archetype_generation : Nat
deriving DecidableEq

/-- `SystemState::new`: builds fresh metadata, initializes the parameter
state against the world, captures the world id, and sets the observed
generation to `ArchetypeGeneration::initial()` (index `0`). -/
def SystemState.new {σ α : Type} (ops : ParamStateOps σ α) (w : World)
    (name : String) : SystemState σ :=
  let r := ops.init w (SystemMeta.new name)
  { meta := r.2
    param_state := r.1
    world_id := w.id
    archetype_generation := 0 }

/-- `SystemState::matches_world`: `self.world_id == world.id()` —
instance-identity comparison only. -/
def SystemState.matches_world {σ : Type} (s : SystemState σ) (w : World) :
    Bool :=
  s.world_id == w.id

/-- The message of the `assert!` in
`SystemState::validate_world_and_update_archetypes`. -/
def mismatchMessage : String :=
  "Encountered a mismatched World. A SystemState cannot be used with Worlds other than the one it was created with."

/-- `SystemState::validate_world_and_update_archetypes`: asserts
`matches_world` (the failed assertion is modelled as `Except.error` with
the assertion's message), then walks the half-open range of archetype
indices from the previously observed generation to the world's current
generation in ascending order, calling the parameter state's
`new_archetype` for each, and records the new generation. -/
def SystemState.validate_world_and_update_archetypes {σ α : Type}
    (ops : ParamStateOps σ α) (s : SystemState σ) (w : World) :
    Except String (SystemState σ) :=
  if s.matches_world w then
    let new_generation := w.generation
    let old_generation := s.archetype_generation
    let folded :=
      (List.range' old_generation (new_generation - old_generation)).foldl
        (fun pm archetype_index => ops.new_archetype pm.1 archetype_index pm.2)
        (s.param_state, s.meta)
    Except.ok
      { s with
        param_state := folded.1
        meta := folded.2
        archetype_generation := new_generation }
  else
    Except.error mismatchMessage

/-- `SystemState::get_unchecked_manual`: increments the world's change
counter through the token and captures the returned tick, fetches the
parameter value with that tick, stores the tick as the metadata's
last-run change tick, and returns the fetched value. -/
def SystemState.get_unchecked_manual {σ α : Type} (ops : ParamStateOps σ α)
    (s : SystemState σ) (world : PtrMut World) : α × SystemState σ × World :=
  let r := world.as_ref.increment_change_tick
  let p := ops.get_param s.param_state s.meta (PtrMut.from_mut r.2) r.1
  (p.1,
   { s with
     param_state := p.2
     meta := { s.meta with last_change_tick := r.1 } },
   r.2)

/-- `SystemState::get`: the validated fetch — runs
`validate_world_and_update_archetypes`, then builds a `PtrMut` token
from the exclusive world reference and forwards to
`get_unchecked_manual`. -/
def SystemState.get {σ α : Type} (ops : ParamStateOps σ α)
    (s : SystemState σ) (w : World) :
    Except String (α × SystemState σ × World) :=
  match s.validate_world_and_update_archetypes ops w with
  | Except.error e => Except.error e
  | Except.ok s2 => Except.ok (s2.get_unchecked_manual ops (PtrMut.from_mut w))

/-- Modelled from the spec: a parameter kind — its trait operations
together with the read-only capability marker
(`ReadOnlySystemParamFetch`, imported by `function_system.rs` but
declared externally): `true` exactly when the kind never requests write
access. -/
structure ParamKind (σ α : Type) where
  ops : ParamStateOps σ α
  read_only : Bool

/-- The contract-violation message for fetching a non-read-only
parameter through shared world access. -/
def sharedAccessMessage : String :=
  "A SystemParam that is not read-only cannot be fetched through shared access to the World."

/-- Modelled from the spec: the shared-access validated fetch entry
point, which in the source is only callable when every declared
parameter kind satisfies the read-only marker (a type-level `where`
bound, modelled here as a contract check); the shared `get` itself is
not among the source files.  When the bound holds it performs the same
validated fetch as `SystemState::get`. -/
def SystemState.get_shared {σ α : Type} (k : ParamKind σ α)
    (s : SystemState σ) (w : World) :
    Except String (α × SystemState σ × World) :=
  if k.read_only then s.get k.ops w
  else Except.error sharedAccessMessage

/-- The events of a run: creating a new archetype in the world
(append-only), or calling the validated refresh path
(`validate_world_and_update_archetypes`) on the cached state. -/
inductive WorldOp where
  | createArchetype
  | refresh
deriving DecidableEq

/-- A world paired with a cached `SystemState` built against it. -/
structure Trace (σ : Type) where
  world : World
  state : SystemState σ

/-- One step of the interleaved sequence: a layout creation appends an
archetype (bumping the generation), a refresh runs the validated
catch-up path (a failed world-identity assertion leaves the pair
unchanged; it cannot fire in a trace over the state's own world). -/
def Trace.step {σ α : Type} (ops : ParamStateOps σ α) (t : Trace σ) :
    WorldOp → Trace σ
  | .createArchetype =>
      { t with
        world := { t.world with archetype_count := t.world.archetype_count + 1 } }
  | .refresh =>
      match t.state.validate_world_and_update_archetypes ops t.world with
      | Except.ok s2 => { t with state := s2 }
      | Except.error _ => t

/-- Run a sequence of events in order. -/
def Trace.run {σ α : Type} (ops : ParamStateOps σ α) (t : Trace σ)
    (l : List WorldOp) : Trace σ :=
  l.foldl (Trace.step ops) t

/-- A parameter state that records every archetype index presented to
its `new_archetype`, in call order — the observation needed to state
which layouts the refresh path has presented. -/
def recorderOps : ParamStateOps (List Nat) Unit :=
  { init := fun _ m => ([], m)
    new_archetype := fun ps a m => (ps ++ [a], m)
    get_param := fun ps _ _ _ => ((), ps)
    apply := fun ps w => (ps, w) }

/-- A fresh recording trace: a `SystemState` built against `w` by
`SystemState::new`, paired with `w`. -/
def Trace.fresh (w : World) (name : String) : Trace (List Nat) :=
  { world := w, state := SystemState.new recorderOps w name }

/-- A trivial parameter kind used to evaluate the fetch paths on
concrete inputs: state `Unit`, item the supplied change tick. -/
def constOps : ParamStateOps Unit Nat :=
  { init := fun _ m => ((), m)
    new_archetype := fun ps _ m => (ps, m)
    get_param := fun _ _ _ change_tick => (change_tick, ())
    apply := fun ps w => (ps, w) }

/-- `FunctionSystem` from `function_system.rs`: the wrapped function's
persistent parameter state (`None` until `initialize` runs) and the
system metadata. -/
structure FunctionSystem (σ : Type) where
  param_state : Option σ
  system_meta : SystemMeta

/-- `IntoSystem::into_system` for a function: builds the system with
`param_state: None` and fresh metadata. -/
def FunctionSystem.into_system {σ : Type} (name : String) :
    FunctionSystem σ :=
  { param_state := none, system_meta := SystemMeta.new name }

/-- `System::initialize` for `FunctionSystem`: sets the parameter state
to `Some` of the initialized state. -/
def FunctionSystem.initialize_system {σ α : Type} (ops : ParamStateOps σ α)
    (f : FunctionSystem σ) (w : World) : FunctionSystem σ :=
  let r := ops.init w f.system_meta
  { f with param_state := some r.1, system_meta := r.2 }

/-- `System::new_archetype` for `FunctionSystem`:
`self.param_state.as_mut().unwrap()` — the panic on an uninitialized
state is modelled as `none`. -/
def FunctionSystem.new_archetype {σ α : Type} (ops : ParamStateOps σ α)
    (f : FunctionSystem σ) (archetype : Nat) : Option (FunctionSystem σ) :=
  match f.param_state with
  | none => none
  | some ps =>
      let r := ops.new_archetype ps archetype f.system_meta
      some { f with param_state := some r.1, system_meta := r.2 }

/-- `System::run_unchecked` for `FunctionSystem`: increments the change
counter through the token, then unwraps the parameter state (panic on
`None` modelled as `none`), fetches the parameters, runs the wrapped
function on the input and the fetched value, and records the new
last-run tick. -/
def FunctionSystem.run_unchecked {σ α β γ : Type} (ops : ParamStateOps σ α)
    (func : γ → α → β) (f : FunctionSystem σ) (input : γ)
    (world : PtrMut World) : Option (β × FunctionSystem σ × World) :=
  let r := world.as_ref.increment_change_tick
  match f.param_state with
  | none => none
  | some ps =>
      let fetched := ops.get_param ps f.system_meta (PtrMut.from_mut r.2) r.1
      some (func input fetched.1,
        { f with
          param_state := some fetched.2
          system_meta := { f.system_meta with last_change_tick := r.1 } },
        r.2)

/-- `System::run`: builds the token from the exclusive world reference
and forwards to `run_unchecked`. -/
def FunctionSystem.run {σ α β γ : Type} (ops : ParamStateOps σ α)
    (func : γ → α → β) (f : FunctionSystem σ) (input : γ) (w : World) :
    Option (β × FunctionSystem σ × World) :=
  f.run_unchecked ops func input (PtrMut.from_mut w)

/-- `System::apply_buffers` for `FunctionSystem`: unwraps the parameter
state (panic on `None` modelled as `none`) and flushes it into the
world. -/
def FunctionSystem.apply_buffers {σ α : Type} (ops : ParamStateOps σ α)
    (f : FunctionSystem σ) (w : World) : Option (FunctionSystem σ × World) :=
  match f.param_state with
  | none => none
  | some ps =>
      let r := ops.apply ps w
      some ({ f with param_state := some r.1 }, r.2)

/-- The invariant tying a recording trace together: the cached state was
built against this world, the recorded presentations are exactly the
archetype indices below the observed generation in ascending order, and
the observed generation never exceeds the world's generation. -/
def TraceInv (t : Trace (List Nat)) : Prop :=
  t.state.world_id = t.world.id ∧
  t.state.param_state = List.range' 0 t.state.archetype_generation ∧
  t.state.archetype_generation ≤ t.world.archetype_count

theorem SystemMeta.applyOp_is_send_false (m : SystemMeta) (op : MetaOp)
    (h : m.is_send = false) : (m.applyOp op).is_send = false := by
  cases op <;>
    simp [SystemMeta.applyOp, SystemMeta.set_non_send,
      SystemMeta.check_change_tick, h]

theorem SystemMeta.applyOps_is_send_false (m : SystemMeta) (ops : List MetaOp)
    (h : m.is_send = false) : (m.applyOps ops).is_send = false := by
  induction ops generalizing m with
  | nil => exact h
  | cons op ops ih =>
      exact ih _ (m.applyOp_is_send_false op h)

theorem SystemMeta.applyOps_mem_setNonSend (m : SystemMeta) (ops : List MetaOp)
    (h : MetaOp.setNonSend ∈ ops) : (m.applyOps ops).is_send = false := by
  induction ops generalizing m with
  | nil => cases h
  | cons op ops ih =>
      rcases List.mem_cons.mp h with h1 | h2
      · subst h1
        exact SystemMeta.applyOps_is_send_false _ ops rfl
      · exact ih _ h2

theorem wrapping_sub_add_cancel (T d : Nat) (_hT : T < U32_SIZE)
    (hd : d < U32_SIZE) : wrapping_sub ((T + d) % U32_SIZE) T = d := by
  simp only [wrapping_sub, U32_SIZE] at *
  omega

/-- C2: for all `u32` values `lastTick = T` and `currentTick = T + d`
(mod `2^32`), `check_system_change_tick` computes `d` by wrapping
subtraction; if `d ≤ (u32::MAX / 4) * 3` the last tick is unchanged and
no warning is produced; if `d > (u32::MAX / 4) * 3` the last tick is set
to `currentTick - (u32::MAX / 4) * 3` (wrapping) and a warning naming
the system is produced; at the exact boundary `d = (u32::MAX / 4) * 3`
the last tick is unchanged. -/
theorem check_system_change_tick_branches (T d : Nat) (name : String)
    (hT : T < U32_SIZE) (hd : d < U32_SIZE) :
    (d ≤ MAX_DELTA →
      check_system_change_tick T ((T + d) % U32_SIZE) name = (T, none)) ∧
    (d > MAX_DELTA →
      check_system_change_tick T ((T + d) % U32_SIZE) name
        = (wrapping_sub ((T + d) % U32_SIZE) MAX_DELTA, some name)) ∧
    check_system_change_tick T ((T + MAX_DELTA) % U32_SIZE) name = (T, none) := by
  have key := wrapping_sub_add_cancel T d hT hd
  have keyB := wrapping_sub_add_cancel T MAX_DELTA hT (by decide)
  refine ⟨?_, ?_, ?_⟩
  · intro hle
    simp only [check_system_change_tick, key]
    rw [if_neg (by omega)]
  · intro hgt
    simp only [check_system_change_tick, key]
    rw [if_pos (by omega)]
  · simp only [check_system_change_tick, keyB]
    rw [if_neg (by omega)]

/-- Witness for C2 at `T = 5`, `d = 7`. -/
theorem check_system_change_tick_branches_witness :
    (5 : Nat) < U32_SIZE ∧ (7 : Nat) < U32_SIZE ∧
    ((7 ≤ MAX_DELTA →
      check_system_change_tick 5 ((5 + 7) % U32_SIZE) "sysA" = (5, none)) ∧
    (7 > MAX_DELTA →
      check_system_change_tick 5 ((5 + 7) % U32_SIZE) "sysA"
        = (wrapping_sub ((5 + 7) % U32_SIZE) MAX_DELTA, some "sysA")) ∧
    check_system_change_tick 5 ((5 + MAX_DELTA) % U32_SIZE) "sysA" = (5, none)) :=
  ⟨by decide, by decide,
    check_system_change_tick_branches 5 7 "sysA" (by decide) (by decide)⟩

/-- C10: after `check_system_change_tick` runs, the wrapping difference
between the current change tick and the (possibly clamped) last change
tick is at most `(u32::MAX / 4) * 3`; the clamp uses wrapping
subtraction, so this holds even when the current tick is numerically
smaller than the clamp distance. -/
theorem check_system_change_tick_postcondition (last change : Nat)
    (name : String) (_hl : last < U32_SIZE) (_hc : change < U32_SIZE) :
    wrapping_sub change (check_system_change_tick last change name).1
      ≤ MAX_DELTA := by
  simp only [check_system_change_tick]
  by_cases h : wrapping_sub change last > MAX_DELTA
  · rw [if_pos h]
    simp only [wrapping_sub, MAX_DELTA_eq, U32_SIZE] at *
    omega
  · rw [if_neg h]
    exact Nat.not_lt.mp h

/-- Witness for C10 at `last = 1000000000`, `change = 5` (a case where
the clamp fires and the current tick is numerically smaller than the
clamp distance). -/
theorem check_system_change_tick_postcondition_witness :
    (1000000000 : Nat) < U32_SIZE ∧ (5 : Nat) < U32_SIZE ∧
    wrapping_sub 5 (check_system_change_tick 1000000000 5 "sysB").1
      ≤ MAX_DELTA :=
  ⟨by decide, by decide,
    check_system_change_tick_postcondition 1000000000 5 "sysB"
      (by decide) (by decide)⟩

/-- C4: a fresh `SystemMeta` has send-affinity `true`; `set_non_send` is
idempotent; and after any operation sequence containing `set_non_send`
(or starting from an already non-send metadata), `is_send` is `false` —
the latch is never reversible. -/
theorem set_non_send_latch (name : String) (m : SystemMeta)
    (ops : List MetaOp)
    (h : MetaOp.setNonSend ∈ ops ∨ m.is_send = false) :
    (SystemMeta.new name).is_send = true ∧
    m.set_non_send.set_non_send = m.set_non_send ∧
    (m.applyOps ops).is_send = false := by
  refine ⟨rfl, rfl, ?_⟩
  rcases h with h | h
  · exact m.applyOps_mem_setNonSend ops h
  · exact m.applyOps_is_send_false ops h

/-- Witness for C4 on the single-operation sequence `[setNonSend]`. -/
theorem set_non_send_latch_witness :
    (MetaOp.setNonSend ∈ [MetaOp.setNonSend] ∨
      (SystemMeta.new "w4").is_send = false) ∧
    ((SystemMeta.new "w4").is_send = true ∧
     (SystemMeta.new "w4").set_non_send.set_non_send
        = (SystemMeta.new "w4").set_non_send ∧
     ((SystemMeta.new "w4").applyOps [MetaOp.setNonSend]).is_send = false) :=
  ⟨Or.inl (by decide),
    set_non_send_latch "w4" (SystemMeta.new "w4") [MetaOp.setNonSend]
      (Or.inl (by decide))⟩

theorem SystemMetadata.applyOp_is_exclusive_true (m : SystemMetadata)
    (op : MetadataOp) (h : m.is_exclusive = true) :
    (m.applyOp op).is_exclusive = true := by
  cases op <;> simp [SystemMetadata.applyOp, SystemMetadata.set_exclusive, h]

theorem SystemMetadata.applyOps_is_exclusive_true (m : SystemMetadata)
    (ops : List MetadataOp) (h : m.is_exclusive = true) :
    (m.applyOps ops).is_exclusive = true := by
  induction ops generalizing m with
  | nil => exact h
  | cons op ops ih => exact ih _ (m.applyOp_is_exclusive_true op h)

theorem SystemMetadata.applyOps_mem_setExclusive (m : SystemMetadata)
    (ops : List MetadataOp) (h : MetadataOp.setExclusive ∈ ops) :
    (m.applyOps ops).is_exclusive = true := by
  induction ops generalizing m with
  | nil => cases h
  | cons op ops ih =>
      rcases List.mem_cons.mp h with h1 | h2
      · subst h1
        exact SystemMetadata.applyOps_is_exclusive_true _ ops rfl
      · exact ih _ h2

/-- C5: `SystemMetadata` carries an exclusivity flag initialized
`false`; `set_exclusive` is an idempotent one-directional latch, and no
operation sequence can reset the flag once set. -/
theorem set_exclusive_latch (name : String) (m : SystemMetadata)
    (ops : List MetadataOp)
    (h : MetadataOp.setExclusive ∈ ops ∨ m.is_exclusive = true) :
    (SystemMetadata.new name).is_exclusive = false ∧
    m.set_exclusive.set_exclusive = m.set_exclusive ∧
    (m.applyOps ops).is_exclusive = true := by
  refine ⟨rfl, rfl, ?_⟩
  rcases h with h | h
  · exact m.applyOps_mem_setExclusive ops h
  · exact m.applyOps_is_exclusive_true ops h

/-- Witness for C5 on the single-operation sequence `[setExclusive]`. -/
theorem set_exclusive_latch_witness :
    (MetadataOp.setExclusive ∈ [MetadataOp.setExclusive] ∨
      (SystemMetadata.new "w5").is_exclusive = true) ∧
    ((SystemMetadata.new "w5").is_exclusive = false ∧
     (SystemMetadata.new "w5").set_exclusive.set_exclusive
        = (SystemMetadata.new "w5").set_exclusive ∧
     ((SystemMetadata.new "w5").applyOps [MetadataOp.setExclusive]).is_exclusive
        = true) :=
  ⟨Or.inl (by decide),
    set_exclusive_latch "w5" (SystemMetadata.new "w5")
      [MetadataOp.setExclusive] (Or.inl (by decide))⟩

/-- C6: exclusive dereference of an AccessToken built from a shared
reference fails (deterministically, the function of the token alone),
never returning a reference; a token built from an exclusive reference
succeeds. -/
theorem shared_token_as_mut_fails (α : Type) (a : α) :
    (SemiSafeCell.from_ref a).as_mut = none ∧
    (SemiSafeCell.from_mut a).as_mut = some a :=
  ⟨rfl, rfl⟩

/-- C7: `matches_world` compares only world identity — it is equivalent
to equality of the stored id with the world's id, and two structurally
different worlds with the same id are indistinguishable to it — and the
validated refresh/fetch path on a mismatched world is rejected with the
descriptive assertion message, not a silent result. -/
theorem matches_world_identity_only {σ α : Type} (ops : ParamStateOps σ α)
    (s : SystemState σ) (w w1 w2 : World)
    (hid : w1.id = w2.id) (h : s.matches_world w = false) :
    s.matches_world w1 = s.matches_world w2 ∧
    (s.matches_world w1 = true ↔ s.world_id = w1.id) ∧
    s.validate_world_and_update_archetypes ops w
      = Except.error mismatchMessage ∧
    s.get ops w = Except.error mismatchMessage := by
  refine ⟨?_, ?_, ?_, ?_⟩
  · simp [SystemState.matches_world, hid]
  · simp [SystemState.matches_world]
  · simp [SystemState.validate_world_and_update_archetypes, h]
  · simp [SystemState.get, SystemState.validate_world_and_update_archetypes, h]

/-- Witness for C7: a state built against world id `1`, probed with a
world of id `2`, and two worlds sharing id `3` but differing in
structure. -/
theorem matches_world_identity_only_witness :
    ((⟨3, 5, 7⟩ : World).id = (⟨3, 0, 0⟩ : World).id) ∧
    ((SystemState.new constOps ⟨1, 0, 0⟩ "w7").matches_world ⟨2, 0, 0⟩
        = false) ∧
    ((SystemState.new constOps ⟨1, 0, 0⟩ "w7").matches_world ⟨3, 5, 7⟩
        = (SystemState.new constOps ⟨1, 0, 0⟩ "w7").matches_world ⟨3, 0, 0⟩ ∧
     ((SystemState.new constOps ⟨1, 0, 0⟩ "w7").matches_world ⟨3, 5, 7⟩ = true
        ↔ (SystemState.new constOps ⟨1, 0, 0⟩ "w7").world_id
            = (⟨3, 5, 7⟩ : World).id) ∧
     (SystemState.new constOps ⟨1, 0, 0⟩
          "w7").validate_world_and_update_archetypes constOps ⟨2, 0, 0⟩
        = Except.error mismatchMessage ∧
     (SystemState.new constOps ⟨1, 0, 0⟩ "w7").get constOps ⟨2, 0, 0⟩
        = Except.error mismatchMessage) :=
  ⟨rfl, rfl,
    matches_world_identity_only constOps
      (SystemState.new constOps ⟨1, 0, 0⟩ "w7") ⟨2, 0, 0⟩ ⟨3, 5, 7⟩ ⟨3, 0, 0⟩
      rfl rfl⟩

/-- C9: on a `FunctionSystem` on which `initialize` has never been
called, `new_archetype`, `run_unchecked`, `run` and `apply_buffers` all
fail immediately on the uninitialized parameter state; after
`initialize`, each of these operations proceeds. -/
theorem function_system_requires_initialization {σ α β γ : Type}
    (ops : ParamStateOps σ α) (func : γ → α → β) (name : String)
    (input : γ) (w : World) (archetype : Nat) :
    (FunctionSystem.into_system name : FunctionSystem σ).param_state
        = none ∧
    (FunctionSystem.into_system name : FunctionSystem σ).new_archetype ops
        archetype = none ∧
    (FunctionSystem.into_system name : FunctionSystem σ).run_unchecked ops
        func input (PtrMut.from_mut w) = none ∧
    (FunctionSystem.into_system name : FunctionSystem σ).run ops func input w
        = none ∧
    (FunctionSystem.into_system name : FunctionSystem σ).apply_buffers ops w
        = none ∧
    (((FunctionSystem.into_system name : FunctionSystem σ).initialize_system
        ops w).new_archetype ops archetype).isSome = true ∧
    (((FunctionSystem.into_system name : FunctionSystem σ).initialize_system
        ops w).run_unchecked ops func input (PtrMut.from_mut w)).isSome
        = true ∧
    (((FunctionSystem.into_system name : FunctionSystem σ).initialize_system
        ops w).run ops func input w).isSome = true ∧
    (((FunctionSystem.into_system name : FunctionSystem σ).initialize_system
        ops w).apply_buffers ops w).isSome = true :=
  ⟨rfl, rfl, rfl, rfl, rfl, rfl, rfl, rfl, rfl⟩

/-- C8: a parameter kind that does not satisfy the read-only capability
marker is rejected by the shared-access fetch entry point with the
contract-violation error — never silently fetched — while a read-only
kind on a matching world is fetched successfully. -/
theorem get_shared_read_only_contract {σ α τ β : Type} (k : ParamKind σ α)
    (s : SystemState σ) (w : World) (k2 : ParamKind τ β)
    (s2 : SystemState τ) (w2 : World)
    (h : k.read_only = false) (h2 : k2.read_only = true)
    (hm : s2.matches_world w2 = true) :
    s.get_shared k w = Except.error sharedAccessMessage ∧
    (s2.get_shared k2 w2).isOk = true := by
  constructor
  · simp [SystemState.get_shared, h]
  · simp [SystemState.get_shared, h2, SystemState.get,
      SystemState.validate_world_and_update_archetypes, hm, Except.isOk,
      Except.toBool]

/-- Witness for C8: a non-read-only kind over `constOps` is rejected; a
read-only kind over `constOps` fetches from the matching world. -/
theorem get_shared_read_only_contract_witness :
    (ParamKind.mk constOps false).read_only = false ∧
    (ParamKind.mk constOps true).read_only = true ∧
    (SystemState.new constOps ⟨8, 0, 0⟩ "w8a").matches_world ⟨8, 0, 0⟩
        = true ∧
    ((SystemState.new constOps ⟨8, 0, 0⟩ "w8b").get_shared
        (ParamKind.mk constOps false) ⟨8, 0, 0⟩
        = Except.error sharedAccessMessage ∧
     ((SystemState.new constOps ⟨8, 0, 0⟩ "w8a").get_shared
        (ParamKind.mk constOps true) ⟨8, 0, 0⟩).isOk = true) :=
  ⟨rfl, rfl, rfl,
    get_shared_read_only_contract (ParamKind.mk constOps false)
      (SystemState.new constOps ⟨8, 0, 0⟩ "w8b") ⟨8, 0, 0⟩
      (ParamKind.mk constOps true)
      (SystemState.new constOps ⟨8, 0, 0⟩ "w8a") ⟨8, 0, 0⟩ rfl rfl rfl⟩

/-- C3: the validated fetch `SystemState::get` first runs the refresh
step (so it only proceeds when the world identity matches, and the
observed generation is brought up to the world's generation), then
increments the world's change counter and captures the returned tick,
builds the access token from the exclusive world reference, calls
`get_param` with the captured tick, stores the captured tick as the
metadata's last-run change tick, and returns the fetched value. -/
theorem get_validated_fetch_order {σ α : Type} (ops : ParamStateOps σ α)
    (s s2 : SystemState σ) (w : World)
    (hv : s.validate_world_and_update_archetypes ops w = Except.ok s2) :
    s.matches_world w = true ∧
    s2.archetype_generation = w.generation ∧
    s.get ops w =
      Except.ok
        (((ops.get_param s2.param_state s2.meta
              (PtrMut.from_mut { w with
                change_tick := (w.change_tick + 1) % U32_SIZE })
              ((w.change_tick + 1) % U32_SIZE)).1,
          { s2 with
            param_state :=
              (ops.get_param s2.param_state s2.meta
                (PtrMut.from_mut { w with
                  change_tick := (w.change_tick + 1) % U32_SIZE })
                ((w.change_tick + 1) % U32_SIZE)).2
            meta := { s2.meta with
              last_change_tick := (w.change_tick + 1) % U32_SIZE } },
          { w with change_tick := (w.change_tick + 1) % U32_SIZE })) := by
  have hm : s.matches_world w = true := by
    by_contra hf
    rw [Bool.not_eq_true] at hf
    simp [SystemState.validate_world_and_update_archetypes, hf] at hv
  have hgen : s2.archetype_generation = w.generation := by
    simp [SystemState.validate_world_and_update_archetypes, hm] at hv
    rw [← hv]
  refine ⟨hm, hgen, ?_⟩
  simp [SystemState.get, hv, SystemState.get_unchecked_manual,
    World.increment_change_tick, PtrMut.as_ref, PtrMut.from_mut]

/-- Witness for C3: a fresh state over `constOps` on its own world; the
returned value is the captured tick `1`, which is also stored as the
last-run tick, and the world's counter advances to `1`. -/
theorem get_validated_fetch_order_witness :
    ((SystemState.new constOps ⟨9, 0, 0⟩
        "w3").validate_world_and_update_archetypes constOps ⟨9, 0, 0⟩
      = Except.ok (SystemState.new constOps ⟨9, 0, 0⟩ "w3")) ∧
    ((SystemState.new constOps ⟨9, 0, 0⟩ "w3").matches_world ⟨9, 0, 0⟩
        = true ∧
     (SystemState.new constOps ⟨9, 0, 0⟩ "w3").archetype_generation
        = World.generation ⟨9, 0, 0⟩ ∧
     (SystemState.new constOps ⟨9, 0, 0⟩ "w3").get constOps ⟨9, 0, 0⟩ =
      Except.ok
        (((constOps.get_param
              (SystemState.new constOps ⟨9, 0, 0⟩ "w3").param_state
              (SystemState.new constOps ⟨9, 0, 0⟩ "w3").meta
              (PtrMut.from_mut { World.mk 9 0 0 with
                change_tick := ((9 : Nat) * 0 + 1) % U32_SIZE })
              (((World.mk 9 0 0).change_tick + 1) % U32_SIZE)).1,
          { SystemState.new constOps ⟨9, 0, 0⟩ "w3" with
            param_state :=
              (constOps.get_param
                (SystemState.new constOps ⟨9, 0, 0⟩ "w3").param_state
                (SystemState.new constOps ⟨9, 0, 0⟩ "w3").meta
                (PtrMut.from_mut { World.mk 9 0 0 with
                  change_tick := ((World.mk 9 0 0).change_tick + 1) % U32_SIZE })
                (((World.mk 9 0 0).change_tick + 1) % U32_SIZE)).2
            meta := { (SystemState.new constOps ⟨9, 0, 0⟩ "w3").meta with
              last_change_tick :=
                ((World.mk 9 0 0).change_tick + 1) % U32_SIZE } },
          { World.mk 9 0 0 with
            change_tick := ((World.mk 9 0 0).change_tick + 1) % U32_SIZE })))
    :=
  ⟨rfl,
    get_validated_fetch_order constOps
      (SystemState.new constOps ⟨9, 0, 0⟩ "w3")
      (SystemState.new constOps ⟨9, 0, 0⟩ "w3") ⟨9, 0, 0⟩ rfl⟩

theorem recorder_foldl (l ps : List Nat) (m : SystemMeta) :
    l.foldl (fun pm archetype_index =>
        recorderOps.new_archetype pm.1 archetype_index pm.2) (ps, m)
      = (ps ++ l, m) := by
  induction l generalizing ps with
  | nil => simp
  | cons a l ih => simpa [recorderOps] using ih (ps ++ [a])

theorem validate_recorder (s : SystemState (List Nat)) (w : World)
    (h : s.matches_world w = true) :
    s.validate_world_and_update_archetypes recorderOps w
      = Except.ok
          { s with
            param_state := s.param_state
              ++ List.range' s.archetype_generation
                  (w.archetype_count - s.archetype_generation)
            archetype_generation := w.archetype_count } := by
  simp [SystemState.validate_world_and_update_archetypes, h, recorder_foldl,
    World.generation]

theorem fresh_inv (w : World) (name : String) :
    TraceInv (Trace.fresh w name) :=
  ⟨rfl, rfl, Nat.zero_le _⟩

theorem range'_catchup (g c : Nat) (h : g ≤ c) :
    List.range' 0 g ++ List.range' g (c - g) = List.range' 0 c := by
  have ha := List.range'_append_1 0 g (c - g)
  rw [Nat.zero_add] at ha
  rw [ha, Nat.sub_add_cancel h]

theorem step_preserves_inv (t : Trace (List Nat)) (op : WorldOp)
    (h : TraceInv t) : TraceInv (Trace.step recorderOps t op) := by
  obtain ⟨h1, h2, h3⟩ := h
  cases op with
  | createArchetype =>
      exact ⟨h1, h2, Nat.le_succ_of_le h3⟩
  | refresh =>
      have hm : t.state.matches_world t.world = true := by
        simp [SystemState.matches_world, h1]
      have hstep : Trace.step recorderOps t WorldOp.refresh
          = { t with state :=
              { t.state with
                param_state := t.state.param_state
                  ++ List.range' t.state.archetype_generation
                      (t.world.archetype_count - t.state.archetype_generation)
                archetype_generation := t.world.archetype_count } } := by
        simp [Trace.step, validate_recorder t.state t.world hm]
      rw [hstep]
      refine ⟨h1, ?_, Nat.le_refl _⟩
      show t.state.param_state
          ++ List.range' t.state.archetype_generation
              (t.world.archetype_count - t.state.archetype_generation)
        = List.range' 0 t.world.archetype_count
      rw [h2]
      exact range'_catchup _ _ h3

theorem run_preserves_inv (t : Trace (List Nat)) (l : List WorldOp)
    (h : TraceInv t) : TraceInv (Trace.run recorderOps t l) := by
  induction l generalizing t with
  | nil => exact h
  | cons op l ih => exact ih _ (step_preserves_inv t op h)

/-- C1: over any sequence of archetype creations interleaved with
refreshes, starting from a freshly built `SystemState`, the next refresh
presents to the recording parameter state exactly the archetype indices
in the half-open range from the previously observed generation to the
world's current generation, appended in ascending order, and advances
the observed generation to the current one; after it, the recorded
presentations are exactly one per archetype created up to that point —
in ascending index order, none skipped, none repeated. -/
theorem refresh_presents_layouts_exactly_once (w : World) (name : String)
    (l : List WorldOp) :
    (Trace.step recorderOps (Trace.run recorderOps (Trace.fresh w name) l)
        WorldOp.refresh).state.param_state
      = (Trace.run recorderOps (Trace.fresh w name) l).state.param_state
        ++ List.range'
            (Trace.run recorderOps (Trace.fresh w name) l).state.archetype_generation
            ((Trace.run recorderOps (Trace.fresh w name) l).world.archetype_count
              - (Trace.run recorderOps
                  (Trace.fresh w name) l).state.archetype_generation) ∧
    (Trace.step recorderOps (Trace.run recorderOps (Trace.fresh w name) l)
        WorldOp.refresh).world
      = (Trace.run recorderOps (Trace.fresh w name) l).world ∧
    (Trace.step recorderOps (Trace.run recorderOps (Trace.fresh w name) l)
        WorldOp.refresh).state.archetype_generation
      = (Trace.step recorderOps (Trace.run recorderOps (Trace.fresh w name) l)
          WorldOp.refresh).world.archetype_count ∧
    (Trace.step recorderOps (Trace.run recorderOps (Trace.fresh w name) l)
        WorldOp.refresh).state.param_state
      = List.range
          (Trace.step recorderOps (Trace.run recorderOps (Trace.fresh w name) l)
            WorldOp.refresh).world.archetype_count ∧
    (Trace.step recorderOps (Trace.run recorderOps (Trace.fresh w name) l)
        WorldOp.refresh).state.param_state.Nodup ∧
    (Trace.step recorderOps (Trace.run recorderOps (Trace.fresh w name) l)
        WorldOp.refresh).state.param_state.Pairwise (· < ·) := by
  obtain ⟨h1, h2, h3⟩ :=
    run_preserves_inv (Trace.fresh w name) l (fresh_inv w name)
  have hm : (Trace.run recorderOps (Trace.fresh w name) l).state.matches_world
      (Trace.run recorderOps (Trace.fresh w name) l).world = true := by
    simp [SystemState.matches_world, h1]
  have hstep : Trace.step recorderOps
        (Trace.run recorderOps (Trace.fresh w name) l) WorldOp.refresh
      = { Trace.run recorderOps (Trace.fresh w name) l with state :=
          { (Trace.run recorderOps (Trace.fresh w name) l).state with
            param_state :=
              (Trace.run recorderOps (Trace.fresh w name) l).state.param_state
              ++ List.range'
                  (Trace.run recorderOps
                    (Trace.fresh w name) l).state.archetype_generation
                  ((Trace.run recorderOps
                      (Trace.fresh w name) l).world.archetype_count
                    - (Trace.run recorderOps
                        (Trace.fresh w name) l).state.archetype_generation)
            archetype_generation :=
              (Trace.run recorderOps
                (Trace.fresh w name) l).world.archetype_count } } := by
    simp [Trace.step, validate_recorder _ _ hm]
  have hfull : (Trace.run recorderOps (Trace.fresh w name) l).state.param_state
      ++ List.range'
          (Trace.run recorderOps
            (Trace.fresh w name) l).state.archetype_generation
          ((Trace.run recorderOps (Trace.fresh w name) l).world.archetype_count
            - (Trace.run recorderOps
                (Trace.fresh w name) l).state.archetype_generation)
      = List.range
          (Trace.run recorderOps (Trace.fresh w name) l).world.archetype_count := by
    rw [h2, range'_catchup _ _ h3, List.range_eq_range']
  rw [hstep]
  refine ⟨rfl, rfl, rfl, hfull, ?_, ?_⟩
  · rw [hfull]
    exact List.nodup_range _
  · rw [hfull]
    exact List.pairwise_lt_range _

end Bevy
